import Mathlib

/-!
A shallow embedding of `src/scis_demo.py` (Symbiodynamic Cyber-Immune
System demo).  Python floats are modelled as `ℚ`; Python dicts keyed by
strings are modelled as association lists (`List (String × _)`) whose
insertion order matches the source; the random draws of
`random.uniform(-0.1, 0.2)` in `evolve_rules` are injected explicitly as a
function from rule name to the drawn value, so every theorem quantifies
over the randomness.  Wall-clock reads (`time.time()`) are injected as an
explicit `now : ℚ` argument.
-/

namespace SCIS

/-- A value stored in an agent's rule dict.  The Python code stores
arbitrary values and perturbs only those passing
`isinstance(current_rule, (int, float))`; `num` covers the numeric case,
`other` everything else. -/
inductive RuleValue where
  | num (q : ℚ)
  | other
deriving DecidableEq

/-- `self.R` of `MutableGenerativeStructure`: rule name → value, in
insertion order. -/
abbrev Rules := List (String × RuleValue)

/-- `self.ρ` of `MutableGenerativeStructure`: rule name → plasticity. -/
abbrev PlasticityConfig := List (String × ℚ)

/-- `MGSState` (scis_demo.py line 12): only `relationship_time` is ever
read or written by the embedded operations; `internal_state`,
`performance_metrics`, `threat_intel` and the creation timestamp are
never touched by any method of the source and are omitted. -/
structure MGSState where
  relationship_time : ℚ
deriving DecidableEq

/-- The `interaction_context` dict built by
`SwarmCoordinator._trigger_evolution_cycle` (lines 285-289).
`evolve_rules` receives it but never reads it. -/
structure EvolutionContext where
  reason : String
  timestamp : ℚ
  shared_knowledge_count : ℕ
deriving DecidableEq

/-- `MutableGenerativeStructure.calculate_plasticity` (line 36):
`self.ρ.get(rule_name, 0.5)`. -/
def calculate_plasticity (ρ : PlasticityConfig) (rule_name : String) : ℚ :=
  (ρ.lookup rule_name).getD (1/2)

/-- The body of the per-rule loop of
`MutableGenerativeStructure.evolve_rules` (lines 44-58).  `draw rule_name`
is the value returned by `random.uniform(-0.1, 0.2)` for this rule. -/
def evolveRule (ρ : PlasticityConfig) (draw : String → ℚ)
    (rule_name : String) (current_rule : RuleValue) : RuleValue :=
  let plasticity := calculate_plasticity ρ rule_name
  if plasticity > 1/10 then
    match current_rule with
    | .num q => .num (max (1/10) (q + draw rule_name * plasticity))
    | .other => current_rule
  else
    current_rule

/-- The `new_rules` dict produced by one call of `evolve_rules`
(lines 42-59): every entry of `R` is rewritten by `evolveRule`, keys and
order preserved. -/
def evolveRulesMap (ρ : PlasticityConfig) (draw : String → ℚ) (R : Rules) : Rules :=
  R.map fun p => (p.1, evolveRule ρ draw p.1 p.2)

/-- The shared state of a `MutableGenerativeStructure`: `self.R`,
`self.ρ`, `self.S`. -/
structure MGS where
  R : Rules
  ρ : PlasticityConfig
  S : MGSState
deriving DecidableEq

/-- `MutableGenerativeStructure.evolve_rules` (lines 39-62): rewrite
`self.R` rule by rule, then `self.S.relationship_time += 1.0`.  The
`interaction_context` argument is received but never read by the source
method. -/
def MGS.evolve_rules (a : MGS) (_interaction_context : EvolutionContext)
    (draw : String → ℚ) : MGS :=
  { a with
    R := evolveRulesMap a.ρ draw a.R
    S := { a.S with relationship_time := a.S.relationship_time + 1 } }

/-- Iterated evolution: one `(context, draw)` pair per `evolve_rules`
call, applied left to right. -/
def MGS.evolveN (a : MGS) (calls : List (EvolutionContext × (String → ℚ))) : MGS :=
  calls.foldl (fun s c => s.evolve_rules c.1 c.2) a

/-! ### NetworkSentinelMGS -/

/-- The `packet_data` dict consumed by `NetworkSentinelMGS.execute_rules`.
Fields are `Option`s because the source reads them with `.get`: a missing
`destination_port` or `protocol` compares unequal to every constant, a
missing `packet_size` or `rate` defaults to 0. -/
structure PacketData where
  protocol : Option String
  destination_port : Option ℤ
  packet_size : Option ℤ
  rate : Option ℤ
deriving DecidableEq

/-- The result dict of `NetworkSentinelMGS.execute_rules` (lines 104-110). -/
structure SentinelResult where
  threat_detected : Bool
  threat_type : String
  confidence : ℚ
  action : String
  timestamp : ℚ
deriving DecidableEq

/-- `NetworkSentinelMGS.execute_rules` (lines 83-110).  The method reads
no agent state, so it is embedded as a function of the packet alone
(`now` stands for the `time.time()` read in the returned dict).  The
three detection rules run in source order: each later matching rule
overwrites `threat_type`, while `confidence` takes running maxima. -/
def NetworkSentinel.execute_rules (now : ℚ) (packet_data : PacketData) : SentinelResult :=
  let threat_detected := false
  let threat_type := "none"
  let confidence : ℚ := 0
  let hitPort := packet_data.destination_port = some 4444 ∨
    packet_data.destination_port = some 1337 ∨
    packet_data.destination_port = some 31337
  let threat_detected := if hitPort then true else threat_detected
  let threat_type := if hitPort then "suspicious_port" else threat_type
  let confidence := if hitPort then (8/10 : ℚ) else confidence
  let hitSize := packet_data.packet_size.getD 0 > 1500
  let threat_detected := if hitSize then true else threat_detected
  let threat_type := if hitSize then "oversized_packet" else threat_type
  let confidence := if hitSize then max confidence (6/10) else confidence
  let hitFlood := packet_data.protocol = some "UDP" ∧ packet_data.rate.getD 0 > 1000
  let threat_detected := if hitFlood then true else threat_detected
  let threat_type := if hitFlood then "udp_flood" else threat_type
  let confidence := if hitFlood then max confidence (9/10) else confidence
  { threat_detected := threat_detected
    threat_type := threat_type
    confidence := confidence
    action := if threat_detected then "block" else "allow"
    timestamp := now }

/-- The `NetworkSentinel` agent as constructed in
`NetworkSentinelMGS.__init__` (lines 67-78). -/
def NetworkSentinel.init : MGS :=
  { R := [("traffic_analysis", .num (7/10)), ("anomaly_detection", .num (8/10)),
          ("protocol_validation", .num (9/10))]
    ρ := [("traffic_analysis", 8/10), ("anomaly_detection", 9/10),
          ("protocol_validation", 3/10)]
    S := { relationship_time := 0 } }

/-! ### DeceptionDirectorMGS -/

/-- An entry of `self.attacker_profiles` (lines 140-145). -/
structure AttackerProfile where
  technical_skill : ℚ
  patience : ℚ
  frustration : ℚ
  interaction_count : ℕ
deriving DecidableEq

/-- The profile created for a first-time attacker (lines 140-145). -/
def defaultProfile : AttackerProfile :=
  { technical_skill := 1/2, patience := 1/2, frustration := 0, interaction_count := 0 }

/-- The in-place mutations `_update_attacker_profile` applies to the
looked-up (or freshly created) profile (lines 148-156): increment the
count, bump skill when the interaction is sophisticated, and from a count
strictly above 3 raise frustration and lower patience. -/
def updateProfileFields (profile : AttackerProfile) (sophisticated : Bool) : AttackerProfile :=
  let profile := { profile with interaction_count := profile.interaction_count + 1 }
  let profile :=
    if sophisticated then
      { profile with technical_skill := min 1 (profile.technical_skill + 1/10) }
    else profile
  if profile.interaction_count > 3 then
    { profile with
      frustration := min 1 (profile.frustration + 1/10)
      patience := max 0 (profile.patience - 1/20) }
  else profile

/-- Dict assignment `self.attacker_profiles[attacker_id] = p`: replace the
existing binding in place, or append a new one. -/
def setProfile : List (String × AttackerProfile) → String → AttackerProfile →
    List (String × AttackerProfile)
  | [], attacker_id, p => [(attacker_id, p)]
  | (k, v) :: rest, attacker_id, p =>
    if k = attacker_id then (attacker_id, p) :: rest
    else (k, v) :: setProfile rest attacker_id p

/-- `DeceptionDirectorMGS._update_attacker_profile` (lines 138-158):
lookup-or-create, mutate, and return the updated profile together with
the updated profile store. -/
def update_attacker_profile (profiles : List (String × AttackerProfile))
    (attacker_id : String) (sophisticated : Bool) :
    AttackerProfile × List (String × AttackerProfile) :=
  let old := (profiles.lookup attacker_id).getD defaultProfile
  let profile := updateProfileFields old sophisticated
  (profile, setProfile profiles attacker_id profile)

/-- The result dict of `_generate_deception_plan` (lines 174-179). -/
structure DeceptionPlan where
  strategy : List String
  honeypot_type : String
  response_delay : ℚ
  emotional_manipulation : String
deriving DecidableEq

/-- `DeceptionDirectorMGS._generate_deception_plan` (lines 160-179): the
frustration branch may prepend two tactics; the skill branch always
appends exactly two (one of its two arms always runs). -/
def generate_deception_plan (profile : AttackerProfile) : DeceptionPlan :=
  let strategies : List String :=
    (if profile.frustration > 7/10 then ["delay_responses", "provide_false_success"] else [])
    ++ (if profile.technical_skill > 7/10 then ["complex_honeypot", "technical_misdirection"]
        else ["simple_honeypot", "obvious_breadcrumbs"])
  { strategy := strategies
    honeypot_type := if profile.technical_skill > 7/10 then "advanced" else "basic"
    response_delay := profile.frustration * 2
    emotional_manipulation := if profile.frustration < 1/2 then "frustration" else "confusion" }

/-- The `attacker_interaction` dict consumed by
`DeceptionDirectorMGS.execute_rules`.  `attacker_id` is an `Option`
because the source reads it with `.get('attacker_id', 'unknown')`;
`sophisticated` is read with `.get('sophisticated', False)`. -/
structure AttackerInteraction where
  attacker_id : Option String
  sophisticated : Bool
  threat_type : Option String
deriving DecidableEq

/-- The DeceptionDirector agent: the shared MGS part plus
`self.attacker_profiles` (the unused `self.active_deceptions` dict is
never read or written after construction and is omitted). -/
structure DeceptionDirectorMGS where
  toMGS : MGS
  attacker_profiles : List (String × AttackerProfile)
deriving DecidableEq

/-- `DeceptionDirectorMGS.execute_rules` (lines 126-136): update the
profile of `attacker_id` (defaulting to `"unknown"`), build the plan from
the updated profile, return the plan alongside the mutated agent. -/
def DeceptionDirectorMGS.execute_rules (a : DeceptionDirectorMGS)
    (attacker_interaction : AttackerInteraction) : DeceptionPlan × DeceptionDirectorMGS :=
  let attacker_id := attacker_interaction.attacker_id.getD "unknown"
  let (profile, profiles) :=
    update_attacker_profile a.attacker_profiles attacker_id attacker_interaction.sophisticated
  let deception_plan := generate_deception_plan profile
  (deception_plan, { a with attacker_profiles := profiles })

/-- The DeceptionDirector agent as constructed in
`DeceptionDirectorMGS.__init__` (lines 115-124). -/
def DeceptionDirector.init : DeceptionDirectorMGS :=
  { toMGS :=
    { R := [("honeypot_effectiveness", .num (6/10)), ("breadcrumb_convincingness", .num (7/10)),
            ("emotional_manipulation", .num (1/2))]
      ρ := [("honeypot_effectiveness", 95/100), ("breadcrumb_convincingness", 95/100),
            ("emotional_manipulation", 95/100)]
      S := { relationship_time := 0 } }
    attacker_profiles := [] }

/-! ### ThreatAnalyzerMGS -/

/-- An entry of `self.threat_database` (lines 204-208): the creation
timestamp, the analysed threat context, and the computed level. -/
structure ThreatRecord where
  timestamp : ℚ
  threat_data : SentinelResult
  threat_level : ℚ
deriving DecidableEq

/-- `ThreatAnalyzerMGS._calculate_threat_level` (lines 217-231): +0.6 for
a detected threat, +confidence·0.3, +0.2 when more than two database
records are younger than 300 seconds, clamped above at 1. -/
def calculate_threat_level (threat_database : List ThreatRecord) (now : ℚ)
    (threat_data : SentinelResult) : ℚ :=
  let base_score : ℚ := 0
  let base_score := if threat_data.threat_detected then base_score + 6/10 else base_score
  let base_score := base_score + threat_data.confidence * (3/10)
  let recent_threats := threat_database.filter fun t => now - t.timestamp < 300
  let base_score := if recent_threats.length > 2 then base_score + 2/10 else base_score
  min 1 base_score

/-- `ThreatAnalyzerMGS._generate_recommendations` (lines 233-244). -/
def generate_recommendations (threat_data : SentinelResult) (threat_level : ℚ) : List String :=
  let recommendations : List String :=
    if threat_level > 8/10 then ["immediate_block", "alert_administrator", "enhance_monitoring"]
    else if threat_level > 1/2 then ["close_monitoring", "update_firewall_rules"]
    else []
  if threat_data.threat_type = "udp_flood" then recommendations ++ ["rate_limiting"]
  else recommendations

/-- The result dict of `ThreatAnalyzerMGS.execute_rules` (lines 210-215).
`confidence` is `self.R['threat_prediction']`; Python raises `KeyError`
when that key is absent, which every reachable agent state avoids, so the
embedding records the raw lookup. -/
structure ThreatAnalysis where
  threat_level : ℚ
  recommendations : List String
  confidence : Option RuleValue
  patterns_identified : ℕ
deriving DecidableEq

/-- The ThreatAnalyzer agent: the shared MGS part plus
`self.threat_database`. -/
structure ThreatAnalyzerMGS where
  toMGS : MGS
  threat_database : List ThreatRecord
deriving DecidableEq

/-- `ThreatAnalyzerMGS.execute_rules` (lines 198-215): compute the level
and recommendations, append the record, and report
`patterns_identified` over the database including the new record. -/
def ThreatAnalyzerMGS.execute_rules (a : ThreatAnalyzerMGS) (now : ℚ)
    (threat_data : SentinelResult) : ThreatAnalysis × ThreatAnalyzerMGS :=
  let threat_level := calculate_threat_level a.threat_database now threat_data
  let recommendations := generate_recommendations threat_data threat_level
  let threat_database := a.threat_database ++
    [{ timestamp := now, threat_data := threat_data, threat_level := threat_level }]
  ({ threat_level := threat_level
     recommendations := recommendations
     confidence := a.toMGS.R.lookup "threat_prediction"
     patterns_identified := (threat_database.filter fun t => t.threat_level > 7/10).length },
   { a with threat_database := threat_database })

/-- The ThreatAnalyzer agent as constructed in
`ThreatAnalyzerMGS.__init__` (lines 184-196). -/
def ThreatAnalyzer.init : ThreatAnalyzerMGS :=
  { toMGS :=
    { R := [("correlation_strength", .num (8/10)), ("pattern_recognition", .num (75/100)),
            ("threat_prediction", .num (6/10))]
      ρ := [("correlation_strength", 7/10), ("pattern_recognition", 9/10),
            ("threat_prediction", 8/10)]
      S := { relationship_time := 0 } }
    threat_database := [] }

/-! ### SwarmCoordinator -/

/-- A threat event as built in `SCISOrchestrator.run_demo`
(lines 349-354). -/
structure ThreatEvent where
  detected_by : String
  threat_context : SentinelResult
  timestamp : ℚ
  simulation_time : ℕ
deriving DecidableEq

/-- `SwarmCoordinator` state (lines 249-251).  The source stores agents
in a name-keyed dict and dispatches to the fixed names
`"DeceptionDirector"` and `"ThreatAnalyzer"`; the embedding keeps one
optional slot per agent name the program ever registers, `none` standing
for an unregistered name. -/
structure SwarmCoordinator where
  network_sentinel : Option MGS
  deception_director : Option DeceptionDirectorMGS
  threat_analyzer : Option ThreatAnalyzerMGS
  shared_knowledge : List ThreatEvent

/-- `SwarmCoordinator._trigger_evolution_cycle` (lines 281-292): build the
evolution context and call `evolve_rules` on every registered agent.
`draw agent_name rule_name` injects the random draw used for that agent's
rule. -/
def SwarmCoordinator.trigger_evolution_cycle (c : SwarmCoordinator) (reason : String)
    (now : ℚ) (draw : String → String → ℚ) : SwarmCoordinator :=
  let evolution_context : EvolutionContext :=
    { reason := reason, timestamp := now,
      shared_knowledge_count := c.shared_knowledge.length }
  { c with
    network_sentinel :=
      c.network_sentinel.map fun a => a.evolve_rules evolution_context (draw "NetworkSentinel")
    deception_director :=
      c.deception_director.map fun a =>
        { a with toMGS := a.toMGS.evolve_rules evolution_context (draw "DeceptionDirector") }
    threat_analyzer :=
      c.threat_analyzer.map fun a =>
        { a with toMGS := a.toMGS.evolve_rules evolution_context (draw "ThreatAnalyzer") } }

/-- `SwarmCoordinator.process_threat_event` (lines 254-279): append the
event to the shared knowledge log; if a DeceptionDirector is registered,
run it on a synthesized interaction (attacker id derived from the clock,
sophistication from confidence > 0.7); if a ThreatAnalyzer is registered,
run it on the event's threat context; a missing agent is skipped
silently.  Finally, when the event confidence exceeds 0.7, trigger one
evolution cycle with reason `"high_severity_threat"`. -/
def SwarmCoordinator.process_threat_event (c : SwarmCoordinator) (now : ℚ)
    (draw : String → String → ℚ) (event_data : ThreatEvent) : SwarmCoordinator :=
  let c := { c with shared_knowledge := c.shared_knowledge ++ [event_data] }
  let c :=
    match c.deception_director with
    | some dd =>
      let interaction : AttackerInteraction :=
        { attacker_id := some ("attacker_" ++ toString (⌊now⌋ : ℤ))
          threat_type := some event_data.threat_context.threat_type
          sophisticated := decide (event_data.threat_context.confidence > 7/10) }
      { c with deception_director := some (dd.execute_rules interaction).2 }
    | none => c
  let c :=
    match c.threat_analyzer with
    | some ta =>
      { c with threat_analyzer := some (ta.execute_rules now event_data.threat_context).2 }
    | none => c
  if event_data.threat_context.confidence > 7/10 then
    c.trigger_evolution_cycle "high_severity_threat" now draw
  else c

/-! ### Concrete sample values (used by witnesses) -/

/-- The "Suspicious" traffic sample of `simulate_network_traffic`
(line 323). -/
def samplePacket : PacketData :=
  { protocol := some "TCP", destination_port := some 4444,
    packet_size := some 2000, rate := some 100 }

/-- A threat context with confidence 0.75. -/
def sampleContext75 : SentinelResult :=
  { threat_detected := true, threat_type := "suspicious_port", confidence := 3/4,
    action := "block", timestamp := 0 }

/-- A threat context with confidence 0.65. -/
def sampleContext65 : SentinelResult :=
  { threat_detected := true, threat_type := "suspicious_port", confidence := 13/20,
    action := "block", timestamp := 0 }

/-- A threat event with confidence 0.75. -/
def sampleEvent75 : ThreatEvent :=
  { detected_by := "NetworkSentinel", threat_context := sampleContext75,
    timestamp := 0, simulation_time := 1 }

/-- A threat event with confidence 0.65. -/
def sampleEvent65 : ThreatEvent :=
  { detected_by := "NetworkSentinel", threat_context := sampleContext65,
    timestamp := 0, simulation_time := 1 }

/-- The coordinator as initialised by `SCISOrchestrator.__init__`
(lines 303-308): all three agents registered, empty knowledge log. -/
def sampleCoordinator : SwarmCoordinator :=
  { network_sentinel := some NetworkSentinel.init
    deception_director := some DeceptionDirector.init
    threat_analyzer := some ThreatAnalyzer.init
    shared_knowledge := [] }

/-- A coordinator with neither a DeceptionDirector nor a ThreatAnalyzer
registered. -/
def sentinelOnlyCoordinator : SwarmCoordinator :=
  { network_sentinel := some NetworkSentinel.init
    deception_director := none
    threat_analyzer := none
    shared_knowledge := [] }

/-- A deterministic stand-in for the random draws: every rule of every
agent draws 0. -/
def zeroDraw : String → String → ℚ := fun _ _ => 0

/-- One concrete `evolve_rules` call (context plus all-zero draws). -/
def sampleCall : EvolutionContext × (String → ℚ) :=
  ({ reason := "periodic_evolution", timestamp := 0, shared_knowledge_count := 0 },
   fun _ => 0)

/-- A profile store holding one attacker who has already interacted three
times. -/
def sampleProfiles : List (String × AttackerProfile) :=
  [("mallory", { technical_skill := 1/2, patience := 1/2, frustration := 0,
                 interaction_count := 3 })]

/-- `true` iff the named rule is present, numeric, and at least the 0.1
evolution floor. -/
def ruleFloorHolds (R : Rules) (name : String) : Bool :=
  match R.lookup name with
  | some (.num q) => decide ((1:ℚ)/10 ≤ q)
  | _ => false

/-- The per-agent `relationship_time` values of a coordinator's three
slots (the observable counting how often each registered agent has
evolved). -/
def SwarmCoordinator.relTimes (c : SwarmCoordinator) : Option ℚ × Option ℚ × Option ℚ :=
  (c.network_sentinel.map fun a => a.S.relationship_time,
   c.deception_director.map fun a => a.toMGS.S.relationship_time,
   c.threat_analyzer.map fun a => a.toMGS.S.relationship_time)

/-! ### Helper lemmas -/

/-- Looking up a rule after the `evolve_rules` rewrite is the rewrite of
the looked-up rule: the per-rule loop preserves keys and order. -/
theorem lookup_evolveRulesMap (ρ : PlasticityConfig) (draw : String → ℚ) (R : Rules)
    (name : String) :
    (evolveRulesMap ρ draw R).lookup name = (R.lookup name).map (evolveRule ρ draw name) := by
  induction R with
  | nil => rfl
  | cons p rest ih =>
    obtain ⟨k, v⟩ := p
    by_cases hk : name = k
    · subst hk
      simp [evolveRulesMap, List.lookup]
    · have hbeq : (name == k) = false := beq_eq_false_iff_ne.mpr hk
      simp only [evolveRulesMap, List.map, List.lookup, hbeq]
      exact ih

/-- One `evolve_rules` call preserves the plasticity configuration. -/
theorem evolve_rules_plasticity (a : MGS) (ctx : EvolutionContext) (draw : String → ℚ) :
    (a.evolve_rules ctx draw).ρ = a.ρ := rfl

/-- A numeric rule whose plasticity exceeds 0.1 is rewritten by one
`evolve_rules` call to `max 0.1 (v + draw · plasticity)`. -/
theorem evolve_rules_lookup_num (a : MGS) (ctx : EvolutionContext) (draw : String → ℚ)
    (name : String) (v : ℚ) (hnum : a.R.lookup name = some (.num v))
    (hplast : calculate_plasticity a.ρ name > 1/10) :
    (a.evolve_rules ctx draw).R.lookup name =
      some (.num (max (1/10) (v + draw name * calculate_plasticity a.ρ name))) := by
  show (evolveRulesMap a.ρ draw a.R).lookup name = _
  rw [lookup_evolveRulesMap, hnum]
  simp only [Option.map, evolveRule]
  rw [if_pos hplast]

/-- Once a numeric rule with plasticity above 0.1 sits at or above the
0.1 floor, any further sequence of `evolve_rules` calls keeps it numeric
and at or above the floor. -/
theorem evolveN_num_floor (calls : List (EvolutionContext × (String → ℚ))) (a : MGS)
    (name : String) (v : ℚ)
    (hplast : calculate_plasticity a.ρ name > 1/10)
    (hnum : a.R.lookup name = some (.num v)) (hv : 1/10 ≤ v) :
    ∃ q : ℚ, (a.evolveN calls).R.lookup name = some (.num q) ∧ 1/10 ≤ q := by
  induction calls generalizing a v with
  | nil => exact ⟨v, hnum, hv⟩
  | cons c cs ih =>
    have hstep := evolve_rules_lookup_num a c.1 c.2 name v hnum hplast
    exact ih (a.evolve_rules c.1 c.2) _ hplast hstep (le_max_left _ _)

/-- Looking up the key just stored by a dict assignment returns the
stored profile. -/
theorem lookup_setProfile (profiles : List (String × AttackerProfile))
    (attacker_id : String) (p : AttackerProfile) :
    (setProfile profiles attacker_id p).lookup attacker_id = some p := by
  induction profiles with
  | nil => simp [setProfile, List.lookup]
  | cons q rest ih =>
    obtain ⟨k, v⟩ := q
    by_cases hk : k = attacker_id
    · simp [setProfile, hk, List.lookup]
    · have hbeq : (attacker_id == k) = false := beq_eq_false_iff_ne.mpr (fun h => hk h.symm)
      simp only [setProfile, if_neg hk, List.lookup, hbeq]
      exact ih

/-- `relationship_time` grows by exactly the number of `evolve_rules`
calls applied. -/
theorem evolveN_relationship_time (a : MGS) (calls : List (EvolutionContext × (String → ℚ))) :
    (a.evolveN calls).S.relationship_time = a.S.relationship_time + calls.length := by
  induction calls generalizing a with
  | nil => simp [MGS.evolveN]
  | cons c cs ih =>
    show ((a.evolve_rules c.1 c.2).evolveN cs).S.relationship_time = _
    rw [ih]
    simp [MGS.evolve_rules]
    ring

/-! ### Claim theorems -/

/-- C1 (counterexample): on the sample with destination_port 4444 and
packet_size 2000 the returned threat_type is "oversized_packet", not
"suspicious_port": the size rule overwrites the label set by the
higher-confidence port rule unconditionally. -/
theorem sentinel_label_overwrite_counterexample :
    samplePacket.destination_port = some 4444 ∧
    samplePacket.packet_size.getD 0 > 1500 ∧
    (NetworkSentinel.execute_rules 0 samplePacket).threat_type ≠ "suspicious_port" ∧
    (NetworkSentinel.execute_rules 0 samplePacket).threat_type = "oversized_packet" := by
  refine ⟨rfl, by norm_num [samplePacket], ?_, ?_⟩ <;>
    simp [NetworkSentinel.execute_rules, samplePacket]

/-- C1 (amended): for every traffic sample matching both the suspicious
port rule and the oversized-packet rule but not the UDP flood rule, the
size rule overwrites the label, so the returned threat_type is
"oversized_packet" while confidence stays at the port rule's 0.8 (the
running maximum). -/
theorem sentinel_label_overwrite (now : ℚ) (p : PacketData)
    (hport : p.destination_port = some 4444 ∨ p.destination_port = some 1337 ∨
      p.destination_port = some 31337)
    (hsize : p.packet_size.getD 0 > 1500)
    (hflood : ¬(p.protocol = some "UDP" ∧ p.rate.getD 0 > 1000)) :
    (NetworkSentinel.execute_rules now p).threat_type = "oversized_packet" ∧
    (NetworkSentinel.execute_rules now p).confidence = 8/10 ∧
    (NetworkSentinel.execute_rules now p).threat_detected = true := by
  have h1 : (p.destination_port = some 4444 ∨ p.destination_port = some 1337 ∨
      p.destination_port = some 31337) = True := eq_true hport
  refine ⟨?_, ?_, ?_⟩ <;>
    · simp only [NetworkSentinel.execute_rules, h1, if_true, if_pos hsize, if_neg hflood]
      try norm_num

/-- C1 (witness for the amended theorem): the concrete sample
TCP/4444/2000/100 satisfies every hypothesis and gets the overwritten
label. -/
theorem sentinel_label_overwrite_witness :
    samplePacket.packet_size.getD 0 > 1500 ∧
    ¬(samplePacket.protocol = some "UDP" ∧ samplePacket.rate.getD 0 > 1000) ∧
    ((NetworkSentinel.execute_rules 0 samplePacket).threat_type = "oversized_packet" ∧
     (NetworkSentinel.execute_rules 0 samplePacket).confidence = 8/10 ∧
     (NetworkSentinel.execute_rules 0 samplePacket).threat_detected = true) := by
  refine ⟨by norm_num [samplePacket], by simp [samplePacket], ?_⟩
  exact sentinel_label_overwrite 0 samplePacket (Or.inl rfl)
    (by norm_num [samplePacket]) (by simp [samplePacket])

/-- C7: the sample {TCP, 4444, 2000, 100} is always detected with
confidence exactly 0.8: the oversized rule takes `max` with 0.6 and the
UDP flood rule does not fire for TCP. -/
theorem sentinel_tcp_4444_confidence (now : ℚ) :
    (NetworkSentinel.execute_rules now samplePacket).threat_detected = true ∧
    (NetworkSentinel.execute_rules now samplePacket).confidence = 8/10 := by
  constructor <;>
    · simp [NetworkSentinel.execute_rules, samplePacket]
      try norm_num

/-- C9: for every packet the sentinel's confidence lies in the finite set
{0, 0.6, 0.8, 0.9}, and it is 0 exactly when no threat was detected. -/
theorem sentinel_confidence_values (now : ℚ) (p : PacketData) :
    ((NetworkSentinel.execute_rules now p).confidence = 0 ∨
     (NetworkSentinel.execute_rules now p).confidence = 6/10 ∨
     (NetworkSentinel.execute_rules now p).confidence = 8/10 ∨
     (NetworkSentinel.execute_rules now p).confidence = 9/10) ∧
    ((NetworkSentinel.execute_rules now p).confidence = 0 ↔
     (NetworkSentinel.execute_rules now p).threat_detected = false) := by
  by_cases h1 : (p.destination_port = some 4444 ∨ p.destination_port = some 1337 ∨
      p.destination_port = some 31337) <;>
  by_cases h2 : p.packet_size.getD 0 > 1500 <;>
  by_cases h3 : (p.protocol = some "UDP" ∧ p.rate.getD 0 > 1000) <;>
    · constructor <;>
        · simp only [NetworkSentinel.execute_rules, h1, h2, h3]
          try norm_num

/-- C10: a deception plan's strategy list has length 4 when frustration
exceeds 0.7 and length 2 otherwise — never 1 or 3, because the skill
branch always contributes exactly one pair. -/
theorem deception_plan_strategy_length (profile : AttackerProfile) :
    ((generate_deception_plan profile).strategy.length = 2 ∨
     (generate_deception_plan profile).strategy.length = 4) ∧
    (generate_deception_plan profile).strategy.length =
      (if profile.frustration > 7/10 then 4 else 2) := by
  by_cases hf : profile.frustration > 7/10 <;>
  by_cases hs : profile.technical_skill > 7/10 <;>
    simp [generate_deception_plan, hf, hs]

/-- C2: a numeric rule whose plasticity exceeds 0.1, evolved at least
once with per-rule draws from [-0.1, 0.2], ends at or above the 0.1
floor: `max 0.1 _` clamps each step. -/
theorem evolve_rules_floor (a : MGS) (calls : List (EvolutionContext × (String → ℚ)))
    (name : String) (v : ℚ)
    (hnum : a.R.lookup name = some (.num v))
    (hplast : calculate_plasticity a.ρ name > 1/10)
    (hcalls : calls ≠ [])
    (hrange : ∀ c ∈ calls, -(1/10) ≤ c.2 name ∧ c.2 name ≤ 2/10) :
    ruleFloorHolds (a.evolveN calls).R name = true := by
  obtain ⟨c, cs, rfl⟩ := List.exists_cons_of_ne_nil hcalls
  have hstep := evolve_rules_lookup_num a c.1 c.2 name v hnum hplast
  obtain ⟨q, hq, hfloor⟩ :=
    evolveN_num_floor cs (a.evolve_rules c.1 c.2) name _ hplast hstep (le_max_left _ _)
  show ruleFloorHolds ((a.evolve_rules c.1 c.2).evolveN cs).R name = true
  simp only [ruleFloorHolds, hq, decide_eq_true_eq]
  exact hfloor

/-- C2 (witness): the NetworkSentinel's `traffic_analysis` rule
(value 0.7, plasticity 0.8) evolved once with a zero draw stays at or
above the floor. -/
theorem evolve_rules_floor_witness :
    NetworkSentinel.init.R.lookup "traffic_analysis" = some (.num (7/10)) ∧
    calculate_plasticity NetworkSentinel.init.ρ "traffic_analysis" > 1/10 ∧
    ruleFloorHolds (NetworkSentinel.init.evolveN [sampleCall]).R "traffic_analysis" = true := by
  refine ⟨rfl, by norm_num [calculate_plasticity, NetworkSentinel.init], ?_⟩
  exact evolve_rules_floor NetworkSentinel.init [sampleCall] "traffic_analysis" (7/10) rfl
    (by norm_num [calculate_plasticity, NetworkSentinel.init]) (by simp)
    (by intro c hc; simp only [List.mem_singleton] at hc; subst hc; norm_num [sampleCall])

/-- C3: `relationship_time` after N `evolve_rules` calls is its initial
value plus N, and neither DeceptionDirector nor ThreatAnalyzer
`execute_rules` (the only other state-mutating operations) ever changes
it — in particular nothing decrements it. -/
theorem relationship_time_counts_evolutions :
    (∀ (a : MGS) (calls : List (EvolutionContext × (String → ℚ))),
      (a.evolveN calls).S.relationship_time = a.S.relationship_time + calls.length) ∧
    (∀ (dd : DeceptionDirectorMGS) (i : AttackerInteraction),
      ((dd.execute_rules i).2).toMGS.S.relationship_time = dd.toMGS.S.relationship_time) ∧
    (∀ (ta : ThreatAnalyzerMGS) (now : ℚ) (td : SentinelResult),
      ((ta.execute_rules now td).2).toMGS.S.relationship_time = ta.toMGS.S.relationship_time) :=
  ⟨evolveN_relationship_time, fun _ _ => rfl, fun _ _ _ => rfl⟩

/-- C5: updating an attacker profile with a non-sophisticated
interaction raises frustration by 0.1 (capped at 1) and lowers patience
by 0.05 (floored at 0) exactly when the incremented interaction count
exceeds 3; earlier interactions leave both fields unchanged.  The
updated profile is the one stored back for that attacker. -/
theorem update_attacker_profile_emotions (profiles : List (String × AttackerProfile))
    (attacker_id : String) :
    (let old := (profiles.lookup attacker_id).getD defaultProfile
     let result := update_attacker_profile profiles attacker_id false
     (old.interaction_count + 1 > 3 →
        result.1.frustration = min 1 (old.frustration + 1/10) ∧
        result.1.patience = max 0 (old.patience - 1/20)) ∧
     (old.interaction_count + 1 ≤ 3 →
        result.1.frustration = old.frustration ∧
        result.1.patience = old.patience) ∧
     result.2.lookup attacker_id = some result.1) := by
  refine ⟨?_, ?_, lookup_setProfile _ _ _⟩ <;>
    · intro hcount
      simp only [update_attacker_profile, updateProfileFields, Bool.false_eq_true, if_false]
      first
        | rw [if_pos hcount]; exact ⟨rfl, rfl⟩
        | rw [if_neg (by omega)]; exact ⟨rfl, rfl⟩

/-- C5 (witness): the fourth interaction of attacker "mallory"
(stored count 3) raises frustration from 0 to 0.1 and lowers patience
from 0.5 to 0.45. -/
theorem update_attacker_profile_emotions_witness :
    (update_attacker_profile sampleProfiles "mallory" false).1.frustration = 1/10 ∧
    (update_attacker_profile sampleProfiles "mallory" false).1.patience = 9/20 := by
  obtain ⟨h3, -, -⟩ := update_attacker_profile_emotions sampleProfiles "mallory"
  have hcount : ((sampleProfiles.lookup "mallory").getD defaultProfile).interaction_count + 1 > 3 := by
    simp [sampleProfiles, List.lookup]
  obtain ⟨hf, hp⟩ := h3 hcount
  rw [hf, hp]
  norm_num [sampleProfiles, List.lookup]

/-- C6: for any confidence in [0,1] and any threat history, the computed
threat level equals the spec's formula and lies in [0,1]. -/
theorem calculate_threat_level_bounds (db : List ThreatRecord) (now : ℚ)
    (td : SentinelResult) (h0 : 0 ≤ td.confidence) (_h1 : td.confidence ≤ 1) :
    calculate_threat_level db now td =
      min 1 ((if td.threat_detected then (6/10 : ℚ) else 0) + td.confidence * (3/10) +
        (if (db.filter fun t => now - t.timestamp < 300).length > 2 then (2/10 : ℚ) else 0)) ∧
    0 ≤ calculate_threat_level db now td ∧ calculate_threat_level db now td ≤ 1 := by
  simp only [calculate_threat_level]
  refine ⟨?_, ?_, min_le_left _ _⟩
  · split_ifs <;> (congr 1; try ring)
  · split_ifs <;> (refine le_min (by norm_num) ?_) <;> linarith

/-- C6 (witness): confidence 0.75 on an empty history gives a level in
[0,1]. -/
theorem calculate_threat_level_bounds_witness :
    0 ≤ sampleContext75.confidence ∧ sampleContext75.confidence ≤ 1 ∧
    (0 ≤ calculate_threat_level [] 0 sampleContext75 ∧
     calculate_threat_level [] 0 sampleContext75 ≤ 1) :=
  ⟨by norm_num [sampleContext75], by norm_num [sampleContext75],
   (calculate_threat_level_bounds [] 0 sampleContext75 (by norm_num [sampleContext75])
     (by norm_num [sampleContext75])).2⟩

/-- C4: an event with confidence 0.75 makes `process_threat_event`
trigger exactly one evolution cycle — every registered agent's
`relationship_time` (which counts its `evolve_rules` calls) rises by
exactly 1 — while an event with confidence 0.65 triggers none. -/
theorem process_threat_event_evolution (c : SwarmCoordinator) (now : ℚ)
    (draw : String → String → ℚ) (e₁ e₂ : ThreatEvent)
    (h₁ : e₁.threat_context.confidence = 3/4)
    (h₂ : e₂.threat_context.confidence = 13/20) :
    (c.process_threat_event now draw e₁).relTimes =
      ((c.relTimes.1.map fun t => t + 1), (c.relTimes.2.1.map fun t => t + 1),
       (c.relTimes.2.2.map fun t => t + 1)) ∧
    (c.process_threat_event now draw e₂).relTimes = c.relTimes := by
  obtain ⟨ns, dd, ta, sk⟩ := c
  constructor <;>
    · cases ns <;> cases dd <;> cases ta <;>
        norm_num [SwarmCoordinator.process_threat_event,
          SwarmCoordinator.trigger_evolution_cycle, SwarmCoordinator.relTimes,
          MGS.evolve_rules, DeceptionDirectorMGS.execute_rules,
          ThreatAnalyzerMGS.execute_rules, update_attacker_profile, h₁, h₂]

/-- C4 (witness): on the freshly initialised coordinator, a confidence
0.75 event raises every agent's relationship_time from 0 to 1; a
confidence 0.65 event leaves all three at 0. -/
theorem process_threat_event_evolution_witness :
    sampleEvent75.threat_context.confidence = 3/4 ∧
    sampleEvent65.threat_context.confidence = 13/20 ∧
    ((sampleCoordinator.process_threat_event 0 zeroDraw sampleEvent75).relTimes =
      (some 1, some 1, some 1) ∧
     (sampleCoordinator.process_threat_event 0 zeroDraw sampleEvent65).relTimes =
      (some 0, some 0, some 0)) := by
  refine ⟨rfl, rfl, ?_⟩
  obtain ⟨ha, hb⟩ := process_threat_event_evolution sampleCoordinator 0 zeroDraw
    sampleEvent75 sampleEvent65 rfl rfl
  rw [ha, hb]
  constructor <;>
    simp [sampleCoordinator, SwarmCoordinator.relTimes, NetworkSentinel.init,
      DeceptionDirector.init, ThreatAnalyzer.init]

/-- C8: when the DeceptionDirector and/or the ThreatAnalyzer is not
registered, `process_threat_event` still appends the event to the shared
knowledge log, and the dispatch to each missing agent is a silent no-op
(the slot stays unregistered; nothing fails). -/
theorem process_threat_event_missing_agent (c : SwarmCoordinator) (now : ℚ)
    (draw : String → String → ℚ) (e : ThreatEvent)
    (_h : c.deception_director = none ∨ c.threat_analyzer = none) :
    (c.process_threat_event now draw e).shared_knowledge = c.shared_knowledge ++ [e] ∧
    (c.deception_director = none →
      (c.process_threat_event now draw e).deception_director = none) ∧
    (c.threat_analyzer = none →
      (c.process_threat_event now draw e).threat_analyzer = none) := by
  obtain ⟨ns, dd, ta, sk⟩ := c
  cases ns <;> cases dd <;> cases ta <;>
    by_cases hconf : e.threat_context.confidence > 7/10 <;>
      simp [SwarmCoordinator.process_threat_event, SwarmCoordinator.trigger_evolution_cycle,
        DeceptionDirectorMGS.execute_rules, ThreatAnalyzerMGS.execute_rules,
        update_attacker_profile, hconf]

/-- C8 (witness): a coordinator with only the sentinel registered
processes an event without any effect on the missing agents and still
logs it. -/
theorem process_threat_event_missing_agent_witness :
    sentinelOnlyCoordinator.deception_director = none ∧
    sentinelOnlyCoordinator.threat_analyzer = none ∧
    (sentinelOnlyCoordinator.process_threat_event 0 zeroDraw sampleEvent75).shared_knowledge =
      [sampleEvent75] := by
  refine ⟨rfl, rfl, ?_⟩
  have h := process_threat_event_missing_agent sentinelOnlyCoordinator 0 zeroDraw
    sampleEvent75 (Or.inl rfl)
  simpa [sentinelOnlyCoordinator] using h.1

end SCIS
